import Mathlib

/-!
Verification of the stormcastrs weather-station collector (src/main.rs).

Shallow embedding conventions:
* Rust floating-point values (`f32`/`f64`) are modelled as exact rationals `ℚ`.
  Every numeric literal appearing in the verified properties is an exact
  decimal, far from any binary-representation tie, so the idealised rational
  semantics agrees with the IEEE computation on all inputs considered here.
* Rust unsigned integers (`u8`/`u16`) are modelled as `ℕ` together with the
  explicit range checks ≤ 255 / ≤ 65535 performed by `str::parse`.
* Fallible Rust code (`serde` decoding, gauge registration) is modelled with
  `Except`.
* The query-string map handed to the handler by the transport is modelled as a
  `List (String × String)` of key/value pairs; the handler's input is a
  `HashMap`, hence the key-uniqueness (`Nodup`) hypotheses where they matter.
-/

namespace Stormcast

/- `Rat.add`, `Rat.mul`, `Rat.inv`, `Rat.sub` and `Rat.ofScientific` are
`@[irreducible]` in Batteries/Mathlib, which blocks `decide`/`rfl` evaluation
of concrete rational computations; re-mark them locally so that the concrete
test vectors can be checked by evaluation. -/
attribute [local semireducible] Rat.add Rat.mul Rat.inv Rat.sub Rat.ofScientific

/-! ## Rounding utility (src/main.rs, `round`) -/

/-- Round-half-away-from-zero to the nearest integer: the semantics of Rust's
`f64::round` ("if a value is half-way between two integers, round away from
`0.0`"). -/
def roundHalfAway (q : ℚ) : ℤ :=
  if 0 ≤ q then ⌊q + 1/2⌋ else -⌊-q + 1/2⌋

/-- `round` from src/main.rs: multiply by `10^decimals`, apply `f64::round`,
divide back. The `f32 → f64` widening and the `f64` arithmetic are modelled as
exact rational arithmetic. -/
def round (value : ℚ) (decimals : ℕ) : ℚ :=
  let factor : ℚ := 10 ^ decimals
  (roundHalfAway (value * factor) : ℚ) / factor

/-! ## Value parsers (Rust `str::parse` on `f32`, `u8`, `u16`)

`serde_urlencoded` deserializes each recognized field by calling `str::parse`
for the field's declared type and wrapping a failure in a custom serde error
that carries the standard library's error message verbatim. -/

/-- Numeric value of a string of ASCII digits (most significant first). -/
def digitsVal (cs : List Char) : ℕ :=
  cs.foldl (fun a c => 10 * a + (c.toNat - 48)) 0

/-- The accumulation loop of Rust's `from_str_radix` (radix 10) for an
unsigned type with maximal value `lim`: left to right, reject the first
non-digit character, and report a positive overflow as soon as the
accumulated value leaves the type's range. -/
def parseUIntLoop (lim : ℕ) : ℕ → List Char → Except String ℕ
  | acc, [] => .ok acc
  | acc, c :: cs =>
    if c.isDigit then
      if lim < 10 * acc + (c.toNat - 48) then
        .error "number too large to fit in target type"
      else parseUIntLoop lim (10 * acc + (c.toNat - 48)) cs
    else .error "invalid digit found in string"

/-- Rust `str::parse::<uN>` (with `lim = 2^N - 1`): an empty string is an
error, one optional leading `'+'` sign is allowed (`'-'` is rejected for
unsigned types as an invalid digit), then at least one digit must follow.
The error strings are the `Display` messages of `core::num::ParseIntError`. -/
def parseUIntAfterSign (lim : ℕ) (ds : List Char) : Except String ℕ :=
  if ds.isEmpty then .error "invalid digit found in string"
  else parseUIntLoop lim 0 ds

def parseUIntData (lim : ℕ) : List Char → Except String ℕ
  | [] => .error "cannot parse integer from empty string"
  | c :: rest => parseUIntAfterSign lim (if c = '+' then rest else c :: rest)

def parseUInt (lim : ℕ) (s : String) : Except String ℕ :=
  parseUIntData lim s.data

/-- Rust `str::parse::<f32>` on finite decimal literals, with the parsed value
kept as an exact rational: optional sign, a mantissa made of digits with at
most one `'.'` and at least one digit, and an optional `e`/`E` exponent with
optional sign and at least one digit. The non-finite literals (`inf`,
`infinity`, `nan`) accepted by Rust have no rational counterpart and are
outside this model; no claim involves them. The error string is the `Display`
message of `core::num::ParseFloatError`. -/
def parseFloat (s : String) : Except String ℚ :=
  let err : Except String ℚ := .error "invalid float literal"
  let cs := s.data
  let signMant : Bool × List Char :=
    match cs with
    | '-' :: rest => (true, rest)
    | '+' :: rest => (false, rest)
    | _ => (false, cs)
  let neg := signMant.1
  let body := signMant.2
  let mant := body.takeWhile (fun c => !(c == 'e' || c == 'E'))
  let expPart := body.dropWhile (fun c => !(c == 'e' || c == 'E'))
  let ip := mant.takeWhile (fun c => !(c == '.'))
  let fp :=
    match mant.dropWhile (fun c => !(c == '.')) with
    | [] => ([] : List Char)
    | _ :: rest => rest
  if ip.all Char.isDigit && fp.all Char.isDigit && !(ip.isEmpty && fp.isEmpty) then
    let mval : ℚ := (digitsVal ip : ℚ) + (digitsVal fp : ℚ) / (10 : ℚ) ^ fp.length
    let signedM : ℚ := if neg then -mval else mval
    match expPart with
    | [] => .ok signedM
    | _ :: ecs =>
      let signExp : Bool × List Char :=
        match ecs with
        | '-' :: rest => (true, rest)
        | '+' :: rest => (false, rest)
        | _ => (false, ecs)
      let eneg := signExp.1
      let eds := signExp.2
      if !eds.isEmpty && eds.all Char.isDigit then
        let e := digitsVal eds
        .ok (if eneg then signedM / 10 ^ e else signedM * 10 ^ e)
      else err
  else err

deriving instance DecidableEq for Except


/-! ## Weather data model (src/main.rs, `struct WeatherData`)

One optional field per recognized query parameter, in source order, plus the
`#[serde(flatten)]` catch-all for unrecognized keys (modelled as the list of
leftover key/value pairs). -/

structure WeatherData where
  tempf : Option ℚ := none
  humidity : Option ℕ := none
  windspeedmph : Option ℚ := none
  windgustmph : Option ℚ := none
  maxdailygust : Option ℚ := none
  winddir : Option ℕ := none
  winddir_avg10m : Option ℕ := none
  uv : Option ℕ := none
  solarradiation : Option ℚ := none
  hourlyrainin : Option ℚ := none
  eventrainin : Option ℚ := none
  dailyrainin : Option ℚ := none
  weeklyrainin : Option ℚ := none
  monthlyrainin : Option ℚ := none
  yearlyrainin : Option ℚ := none
  tempinf : Option ℚ := none
  humidityin : Option ℕ := none
  baromrelin : Option ℚ := none
  baromabsin : Option ℚ := none
  battout : Option ℕ := none
  battin : Option ℕ := none
  extra : List (String × String) := []
deriving DecidableEq

/-- The serde error message for a duplicated recognized field. -/
def dupMsg (k : String) : String := "duplicate field `" ++ k ++ "`"

/-- Setting one parsed field of a `WeatherData` (one named definition per
field, so that goals about `step` stay readable). -/
def setTempf (d : WeatherData) (x : ℚ) : WeatherData := { d with tempf := some x }

def setHumidity (d : WeatherData) (x : ℕ) : WeatherData := { d with humidity := some x }

def setWindspeedmph (d : WeatherData) (x : ℚ) : WeatherData := { d with windspeedmph := some x }

def setWindgustmph (d : WeatherData) (x : ℚ) : WeatherData := { d with windgustmph := some x }

def setMaxdailygust (d : WeatherData) (x : ℚ) : WeatherData := { d with maxdailygust := some x }

def setWinddir (d : WeatherData) (x : ℕ) : WeatherData := { d with winddir := some x }

def setWinddirAvg10m (d : WeatherData) (x : ℕ) : WeatherData := { d with winddir_avg10m := some x }

def setUv (d : WeatherData) (x : ℕ) : WeatherData := { d with uv := some x }

def setSolarradiation (d : WeatherData) (x : ℚ) : WeatherData := { d with solarradiation := some x }

def setHourlyrainin (d : WeatherData) (x : ℚ) : WeatherData := { d with hourlyrainin := some x }

def setEventrainin (d : WeatherData) (x : ℚ) : WeatherData := { d with eventrainin := some x }

def setDailyrainin (d : WeatherData) (x : ℚ) : WeatherData := { d with dailyrainin := some x }

def setWeeklyrainin (d : WeatherData) (x : ℚ) : WeatherData := { d with weeklyrainin := some x }

def setMonthlyrainin (d : WeatherData) (x : ℚ) : WeatherData := { d with monthlyrainin := some x }

def setYearlyrainin (d : WeatherData) (x : ℚ) : WeatherData := { d with yearlyrainin := some x }

def setTempinf (d : WeatherData) (x : ℚ) : WeatherData := { d with tempinf := some x }

def setHumidityin (d : WeatherData) (x : ℕ) : WeatherData := { d with humidityin := some x }

def setBaromrelin (d : WeatherData) (x : ℚ) : WeatherData := { d with baromrelin := some x }

def setBaromabsin (d : WeatherData) (x : ℚ) : WeatherData := { d with baromabsin := some x }

def setBattout (d : WeatherData) (x : ℕ) : WeatherData := { d with battout := some x }

def setBattin (d : WeatherData) (x : ℕ) : WeatherData := { d with battin := some x }

/-- Absorbing an unrecognized key/value pair into the flattened catch-all. -/
def addExtra (d : WeatherData) (k v : String) : WeatherData :=
  { d with extra := d.extra ++ [(k, v)] }

/-- The internal field identifier of the derived `Deserialize` impl (serde's
generated `__Field` enum): one constructor per recognized key. -/
inductive FieldId where
  | tempf
  | humidity
  | windspeedmph
  | windgustmph
  | maxdailygust
  | winddir
  | winddir_avg10m
  | uv
  | solarradiation
  | hourlyrainin
  | eventrainin
  | dailyrainin
  | weeklyrainin
  | monthlyrainin
  | yearlyrainin
  | tempinf
  | humidityin
  | baromrelin
  | baromabsin
  | battout
  | battin
deriving DecidableEq

/-- The query-parameter name of each recognized field. -/
def keyName : FieldId → String
  | .tempf => "tempf"
  | .humidity => "humidity"
  | .windspeedmph => "windspeedmph"
  | .windgustmph => "windgustmph"
  | .maxdailygust => "maxdailygust"
  | .winddir => "winddir"
  | .winddir_avg10m => "winddir_avg10m"
  | .uv => "uv"
  | .solarradiation => "solarradiation"
  | .hourlyrainin => "hourlyrainin"
  | .eventrainin => "eventrainin"
  | .dailyrainin => "dailyrainin"
  | .weeklyrainin => "weeklyrainin"
  | .monthlyrainin => "monthlyrainin"
  | .yearlyrainin => "yearlyrainin"
  | .tempinf => "tempinf"
  | .humidityin => "humidityin"
  | .baromrelin => "baromrelin"
  | .baromabsin => "baromabsin"
  | .battout => "battout"
  | .battin => "battin"

/-- All recognized fields, in declaration order. -/
def allFields : List FieldId :=
  [.tempf, .humidity, .windspeedmph, .windgustmph, .maxdailygust, .winddir,
   .winddir_avg10m, .uv, .solarradiation, .hourlyrainin, .eventrainin,
   .dailyrainin, .weeklyrainin, .monthlyrainin, .yearlyrainin, .tempinf,
   .humidityin, .baromrelin, .baromabsin, .battout, .battin]

/-- Key recognition: the derived deserializer first matches each incoming key
against the recognized field names (`none` = the flattened catch-all). -/
def keyOf (k : String) : Option FieldId :=
  allFields.find? (fun f => keyName f == k)


/-- Processing of a single key/value pair by the derived `Deserialize` of
`WeatherData`: a recognized key is parsed with `str::parse` for its declared
type (`f32` fields via `parseFloat`, `u8` fields via `parseUInt 255`, `u16`
fields via `parseUInt 65535`), a second occurrence of an already-set
recognized field is a duplicate-field error, and any other key is absorbed
into the flattened `extra` map. -/
def step (d : WeatherData) : String × String → Except String WeatherData
  | (k, v) =>
  match keyOf k with
  | some .tempf =>
    match d.tempf with
    | some _ => .error (dupMsg k)
    | none => (parseFloat v).map (setTempf d)
  | some .humidity =>
    match d.humidity with
    | some _ => .error (dupMsg k)
    | none => (parseUInt 255 v).map (setHumidity d)
  | some .windspeedmph =>
    match d.windspeedmph with
    | some _ => .error (dupMsg k)
    | none => (parseFloat v).map (setWindspeedmph d)
  | some .windgustmph =>
    match d.windgustmph with
    | some _ => .error (dupMsg k)
    | none => (parseFloat v).map (setWindgustmph d)
  | some .maxdailygust =>
    match d.maxdailygust with
    | some _ => .error (dupMsg k)
    | none => (parseFloat v).map (setMaxdailygust d)
  | some .winddir =>
    match d.winddir with
    | some _ => .error (dupMsg k)
    | none => (parseUInt 65535 v).map (setWinddir d)
  | some .winddir_avg10m =>
    match d.winddir_avg10m with
    | some _ => .error (dupMsg k)
    | none => (parseUInt 65535 v).map (setWinddirAvg10m d)
  | some .uv =>
    match d.uv with
    | some _ => .error (dupMsg k)
    | none => (parseUInt 255 v).map (setUv d)
  | some .solarradiation =>
    match d.solarradiation with
    | some _ => .error (dupMsg k)
    | none => (parseFloat v).map (setSolarradiation d)
  | some .hourlyrainin =>
    match d.hourlyrainin with
    | some _ => .error (dupMsg k)
    | none => (parseFloat v).map (setHourlyrainin d)
  | some .eventrainin =>
    match d.eventrainin with
    | some _ => .error (dupMsg k)
    | none => (parseFloat v).map (setEventrainin d)
  | some .dailyrainin =>
    match d.dailyrainin with
    | some _ => .error (dupMsg k)
    | none => (parseFloat v).map (setDailyrainin d)
  | some .weeklyrainin =>
    match d.weeklyrainin with
    | some _ => .error (dupMsg k)
    | none => (parseFloat v).map (setWeeklyrainin d)
  | some .monthlyrainin =>
    match d.monthlyrainin with
    | some _ => .error (dupMsg k)
    | none => (parseFloat v).map (setMonthlyrainin d)
  | some .yearlyrainin =>
    match d.yearlyrainin with
    | some _ => .error (dupMsg k)
    | none => (parseFloat v).map (setYearlyrainin d)
  | some .tempinf =>
    match d.tempinf with
    | some _ => .error (dupMsg k)
    | none => (parseFloat v).map (setTempinf d)
  | some .humidityin =>
    match d.humidityin with
    | some _ => .error (dupMsg k)
    | none => (parseUInt 255 v).map (setHumidityin d)
  | some .baromrelin =>
    match d.baromrelin with
    | some _ => .error (dupMsg k)
    | none => (parseFloat v).map (setBaromrelin d)
  | some .baromabsin =>
    match d.baromabsin with
    | some _ => .error (dupMsg k)
    | none => (parseFloat v).map (setBaromabsin d)
  | some .battout =>
    match d.battout with
    | some _ => .error (dupMsg k)
    | none => (parseUInt 255 v).map (setBattout d)
  | some .battin =>
    match d.battin with
    | some _ => .error (dupMsg k)
    | none => (parseUInt 255 v).map (setBattin d)
  | none => .ok (addExtra d k v)

/-- Decoding of a key→string map into a `WeatherData`
(`serde_urlencoded::from_str` on the well-formed query string produced from
the handler's `HashMap<String, String>`): process the pairs in order starting
from the all-absent record, failing on the first unparseable recognized
value. -/
def decode (m : List (String × String)) : Except String WeatherData :=
  m.foldlM step {}


/-! ## Metrics registry (src/main.rs, `struct Metrics`) -/

/-- A prometheus gauge: immutable name and help text, and a current value
(`f64`, modelled as `ℚ`) that starts at the zero default. -/
structure Gauge where
  name : String
  help : String
  value : ℚ := 0
deriving DecidableEq

/-- `Gauge::new` (prometheus): a fresh gauge holds the zero value. -/
def Gauge.new (name help : String) : Gauge := { name := name, help := help }

/-- `Gauge::set`. -/
def Gauge.set (g : Gauge) (x : ℚ) : Gauge := { g with value := x }

/-- The error cases of `AppError` exercised by the verified claims. -/
inductive AppError where
  | ParseError (msg : String)
  | MetricRegistrationError (name : String)
deriving DecidableEq

/-- `register_gauge` from src/main.rs: create a gauge and register it with the
registry (modelled as the list of registered collector names, in registration
order); registering a name that is already present is a
`MetricRegistrationError` identifying that name. -/
def register_gauge (registry : List String) (name help : String) :
    Except AppError (Gauge × List String) :=
  if registry.contains name then .error (.MetricRegistrationError name)
  else .ok (Gauge.new name help, registry ++ [name])

/-- The `Metrics` struct: the registry and one named gauge per tracked
field. -/
structure Metrics where
  registry : List String
  temperature : Gauge
  humidity : Gauge
  wind_speed : Gauge
  wind_gust : Gauge
  max_daily_gust : Gauge
  wind_direction : Gauge
  wind_direction_avg : Gauge
  uv_index : Gauge
  solar_radiation : Gauge
  rain_hourly : Gauge
  rain_event : Gauge
  rain_daily : Gauge
  rain_weekly : Gauge
  rain_monthly : Gauge
  rain_yearly : Gauge
  temperature_indoor : Gauge
  humidity_indoor : Gauge
  barometer_relative : Gauge
  barometer_absolute : Gauge
  battery_outdoor : Gauge
  battery_indoor : Gauge
deriving DecidableEq

/-- `Metrics::new`: build and register every gauge, in source order, with the
source's names and help strings. -/
def Metrics.new : Except AppError Metrics := do
  let registry : List String := []
  let (temperature, registry) ←
    register_gauge registry "weather_temperature_fahrenheit" "Outdoor temperature in Fahrenheit"
  let (humidity, registry) ←
    register_gauge registry "weather_humidity_percent" "Outdoor relative humidity percentage"
  let (wind_speed, registry) ←
    register_gauge registry "weather_wind_speed_mph" "Current wind speed in mph"
  let (wind_gust, registry) ←
    register_gauge registry "weather_wind_gust_mph" "Current wind gust speed in mph"
  let (max_daily_gust, registry) ←
    register_gauge registry "weather_max_daily_gust_mph" "Maximum wind gust today in mph"
  let (wind_direction, registry) ←
    register_gauge registry "weather_wind_direction_degrees" "Current wind direction in degrees (0-359)"
  let (wind_direction_avg, registry) ←
    register_gauge registry "weather_wind_direction_avg10m_degrees" "10-minute average wind direction in degrees"
  let (uv_index, registry) ←
    register_gauge registry "weather_uv_index" "Current UV index level"
  let (solar_radiation, registry) ←
    register_gauge registry "weather_solar_radiation_wm2" "Solar radiation in watts per square meter"
  let (rain_hourly, registry) ←
    register_gauge registry "weather_rain_hourly_inches" "Rainfall in the last hour"
  let (rain_event, registry) ←
    register_gauge registry "weather_rain_event_inches" "Rainfall for the current rain event"
  let (rain_daily, registry) ←
    register_gauge registry "weather_rain_daily_inches" "Total rainfall today"
  let (rain_weekly, registry) ←
    register_gauge registry "weather_rain_weekly_inches" "Total rainfall this week"
  let (rain_monthly, registry) ←
    register_gauge registry "weather_rain_monthly_inches" "Total rainfall this month"
  let (rain_yearly, registry) ←
    register_gauge registry "weather_rain_yearly_inches" "Total rainfall this year"
  let (temperature_indoor, registry) ←
    register_gauge registry "weather_indoor_temperature_fahrenheit" "Indoor temperature in Fahrenheit"
  let (humidity_indoor, registry) ←
    register_gauge registry "weather_indoor_humidity_percent" "Indoor relative humidity percentage"
  let (barometer_relative, registry) ←
    register_gauge registry "weather_barometer_relative_inhg" "Relative barometric pressure in inches of mercury"
  let (barometer_absolute, registry) ←
    register_gauge registry "weather_barometer_absolute_inhg" "Absolute barometric pressure in inches of mercury"
  let (battery_outdoor, registry) ←
    register_gauge registry "weather_battery_outdoor" "Outdoor sensor battery status (0=low, 1=ok)"
  let (battery_indoor, registry) ←
    register_gauge registry "weather_battery_indoor" "Indoor sensor battery status (0=low, 1=ok)"
  .ok { registry, temperature, humidity, wind_speed, wind_gust, max_daily_gust,
        wind_direction, wind_direction_avg, uv_index, solar_radiation,
        rain_hourly, rain_event, rain_daily, rain_weekly, rain_monthly,
        rain_yearly, temperature_indoor, humidity_indoor, barometer_relative,
        barometer_absolute, battery_outdoor, battery_indoor }

/-- `Metrics::update`: for each field present in the reading, overwrite the
corresponding gauge — float fields rounded to their fixed precision, integer
fields converted exactly (`f64::from`) with no rounding call. The source
performs the 21 independent `if let Some(v)` writes sequentially on disjoint
gauges; the net effect is this simultaneous record update. -/
def Metrics.update (m : Metrics) (d : WeatherData) : Metrics :=
  { m with
    temperature :=
      match d.tempf with
      | some v => m.temperature.set (round v 1)
      | none => m.temperature
    humidity :=
      match d.humidity with
      | some v => m.humidity.set (v : ℚ)
      | none => m.humidity
    wind_speed :=
      match d.windspeedmph with
      | some v => m.wind_speed.set (round v 2)
      | none => m.wind_speed
    wind_gust :=
      match d.windgustmph with
      | some v => m.wind_gust.set (round v 2)
      | none => m.wind_gust
    max_daily_gust :=
      match d.maxdailygust with
      | some v => m.max_daily_gust.set (round v 2)
      | none => m.max_daily_gust
    wind_direction :=
      match d.winddir with
      | some v => m.wind_direction.set (v : ℚ)
      | none => m.wind_direction
    wind_direction_avg :=
      match d.winddir_avg10m with
      | some v => m.wind_direction_avg.set (v : ℚ)
      | none => m.wind_direction_avg
    uv_index :=
      match d.uv with
      | some v => m.uv_index.set (v : ℚ)
      | none => m.uv_index
    solar_radiation :=
      match d.solarradiation with
      | some v => m.solar_radiation.set (round v 2)
      | none => m.solar_radiation
    rain_hourly :=
      match d.hourlyrainin with
      | some v => m.rain_hourly.set (round v 3)
      | none => m.rain_hourly
    rain_event :=
      match d.eventrainin with
      | some v => m.rain_event.set (round v 3)
      | none => m.rain_event
    rain_daily :=
      match d.dailyrainin with
      | some v => m.rain_daily.set (round v 3)
      | none => m.rain_daily
    rain_weekly :=
      match d.weeklyrainin with
      | some v => m.rain_weekly.set (round v 3)
      | none => m.rain_weekly
    rain_monthly :=
      match d.monthlyrainin with
      | some v => m.rain_monthly.set (round v 3)
      | none => m.rain_monthly
    rain_yearly :=
      match d.yearlyrainin with
      | some v => m.rain_yearly.set (round v 3)
      | none => m.rain_yearly
    temperature_indoor :=
      match d.tempinf with
      | some v => m.temperature_indoor.set (round v 1)
      | none => m.temperature_indoor
    humidity_indoor :=
      match d.humidityin with
      | some v => m.humidity_indoor.set (v : ℚ)
      | none => m.humidity_indoor
    barometer_relative :=
      match d.baromrelin with
      | some v => m.barometer_relative.set (round v 3)
      | none => m.barometer_relative
    barometer_absolute :=
      match d.baromabsin with
      | some v => m.barometer_absolute.set (round v 3)
      | none => m.barometer_absolute
    battery_outdoor :=
      match d.battout with
      | some v => m.battery_outdoor.set (v : ℚ)
      | none => m.battery_outdoor
    battery_indoor :=
      match d.battin with
      | some v => m.battery_indoor.set (v : ℚ)
      | none => m.battery_indoor }

/-- A concrete metrics value: the successfully constructed registry. -/
def someMetrics : Metrics := Metrics.new.toOption.get (by decide)

/-! ## Ingestion handler (src/main.rs, `handle_weather_data`) -/

/-- The transport-level outcomes of the ingestion handler: `200` with a body,
or `400` (the `WebResponseError` rendering of `AppError::ParseError`) with the
error's `Display` text as body. -/
inductive Response where
  | success (body : String)
  | badRequest (body : String)
deriving DecidableEq

/-- `handle_weather_data`: round-trip the query map through URL encoding
(the identity on the map), decode it, update the metrics, and acknowledge
with `"ok"`; a decode failure is returned as a `400` carrying
`AppError::ParseError`'s message and leaves the metrics untouched. -/
def handle_weather_data (m : Metrics) (params : List (String × String)) :
    Response × Metrics :=
  match decode params with
  | .error e => (.badRequest ("failed to parse weather data: " ++ e), m)
  | .ok d => (.success "ok", m.update d)

/-! ## Characterization of decode success and failure -/

/-- The declared type of a recognized field. -/
inductive FieldKind where
  | float
  | u8
  | u16
deriving DecidableEq

/-- The declared type of each recognized field. -/
def kindOf : FieldId → FieldKind
  | .tempf => .float
  | .humidity => .u8
  | .windspeedmph => .float
  | .windgustmph => .float
  | .maxdailygust => .float
  | .winddir => .u16
  | .winddir_avg10m => .u16
  | .uv => .u8
  | .solarradiation => .float
  | .hourlyrainin => .float
  | .eventrainin => .float
  | .dailyrainin => .float
  | .weeklyrainin => .float
  | .monthlyrainin => .float
  | .yearlyrainin => .float
  | .tempinf => .float
  | .humidityin => .u8
  | .baromrelin => .float
  | .baromabsin => .float
  | .battout => .u8
  | .battin => .u8

/-- Recognition of a query key, together with the declared type of the field
it selects. -/
def recognize (k : String) : Option FieldKind := (keyOf k).map kindOf

/-- Boolean success test for an `Except`. -/
def exOk {α : Type} (e : Except String α) : Bool :=
  match e with
  | .ok _ => true
  | .error _ => false


/-- A key/value pair is good when its key is unrecognized, or its value
parses under the key's declared type. -/
def goodPair (k v : String) : Bool :=
  match recognize k with
  | none => true
  | some .float => exOk (parseFloat v)
  | some .u8 => exOk (parseUInt 255 v)
  | some .u16 => exOk (parseUInt 65535 v)

/-- The field selected by key `k` is still absent in `d` (`true` for
unrecognized keys). -/
def fieldUnset (d : WeatherData) (k : String) : Bool :=
  match keyOf k with
  | some .tempf => d.tempf.isNone
  | some .humidity => d.humidity.isNone
  | some .windspeedmph => d.windspeedmph.isNone
  | some .windgustmph => d.windgustmph.isNone
  | some .maxdailygust => d.maxdailygust.isNone
  | some .winddir => d.winddir.isNone
  | some .winddir_avg10m => d.winddir_avg10m.isNone
  | some .uv => d.uv.isNone
  | some .solarradiation => d.solarradiation.isNone
  | some .hourlyrainin => d.hourlyrainin.isNone
  | some .eventrainin => d.eventrainin.isNone
  | some .dailyrainin => d.dailyrainin.isNone
  | some .weeklyrainin => d.weeklyrainin.isNone
  | some .monthlyrainin => d.monthlyrainin.isNone
  | some .yearlyrainin => d.yearlyrainin.isNone
  | some .tempinf => d.tempinf.isNone
  | some .humidityin => d.humidityin.isNone
  | some .baromrelin => d.baromrelin.isNone
  | some .baromabsin => d.baromabsin.isNone
  | some .battout => d.battout.isNone
  | some .battin => d.battin.isNone
  | none => true

/-! ## The gauge catalog -/

/-- The names registered by `Metrics::new`, in registration order. -/
def gaugeNames : List String :=
  ["weather_temperature_fahrenheit",
   "weather_humidity_percent",
   "weather_wind_speed_mph",
   "weather_wind_gust_mph",
   "weather_max_daily_gust_mph",
   "weather_wind_direction_degrees",
   "weather_wind_direction_avg10m_degrees",
   "weather_uv_index",
   "weather_solar_radiation_wm2",
   "weather_rain_hourly_inches",
   "weather_rain_event_inches",
   "weather_rain_daily_inches",
   "weather_rain_weekly_inches",
   "weather_rain_monthly_inches",
   "weather_rain_yearly_inches",
   "weather_indoor_temperature_fahrenheit",
   "weather_indoor_humidity_percent",
   "weather_barometer_relative_inhg",
   "weather_barometer_absolute_inhg",
   "weather_battery_outdoor",
   "weather_battery_indoor"]

/-! ## Sanity checks on concrete inputs -/

example : parseFloat "72.5" = .ok (72.5 : ℚ) := by decide
example : parseFloat "notanumber" = .error "invalid float literal" := by decide
example : parseFloat "-1.5e2" = .ok (-150 : ℚ) := by decide
example : parseUInt 255 "45" = .ok 45 := by decide
example : parseUInt 255 "300" = .error "number too large to fit in target type" := by decide
example : parseUInt 255 "" = .error "cannot parse integer from empty string" := by decide
example : parseUInt 255 "+17" = .ok 17 := by decide
example : parseUInt 255 "-1" = .error "invalid digit found in string" := by decide
example : round 72.456 1 = 72.5 := by decide

example : decode [] = .ok {} := by decide
example : decode [("tempf", "72.5"), ("humidity", "45")] =
    .ok { tempf := some 72.5, humidity := some 45 } := by decide
example : decode [("tempf", "notanumber")] = .error "invalid float literal" := by decide
example : decode [("foo", "bar")] = .ok { extra := [("foo", "bar")] } := by decide

/-! ## Supporting lemmas -/

/-- A recognized key determines its spelling. -/
lemma keyOf_eq_some {k : String} {f : FieldId} (h : keyOf k = some f) :
    k = keyName f := by
  unfold keyOf at h
  have hp := List.find?_some h
  simp only [beq_iff_eq] at hp
  exact hp.symm

@[simp] lemma exOk_ok {α : Type} (a : α) : exOk (Except.ok a) = true := rfl

@[simp] lemma exOk_error {α : Type} (e : String) :
    exOk (Except.error e : Except String α) = false := rfl

@[simp] lemma exOk_map {α β : Type} (f : α → β) (e : Except String α) :
    exOk (e.map f) = exOk e := by cases e <;> rfl

lemma fieldUnset_empty (k : String) : fieldUnset {} k = true := by
  unfold fieldUnset
  cases hk : keyOf k with
  | none => rfl
  | some f => cases f <;> rfl

/-- On a pair whose field is still unset, `step` succeeds exactly when the
pair is good. -/
lemma step_ok_eq (d : WeatherData) (k v : String) (h : fieldUnset d k = true) :
    exOk (step d (k, v)) = goodPair k v := by
  cases hk : keyOf k with
  | none => simp [fieldUnset, step, goodPair, recognize, hk]
  | some f =>
    cases f <;>
      simp_all [fieldUnset, step, goodPair, recognize, kindOf,
        Option.isNone_iff_eq_none]

lemma fieldUnset_setTempf (d : WeatherData) (x : ℚ) (k' : String)
    (hne : keyOf k' ≠ some FieldId.tempf) :
    fieldUnset (setTempf d x) k' = fieldUnset d k' := by
  unfold fieldUnset
  cases hk' : keyOf k' with
  | none => rfl
  | some f => cases f <;> simp_all [setTempf]

lemma fieldUnset_setHumidity (d : WeatherData) (x : ℕ) (k' : String)
    (hne : keyOf k' ≠ some FieldId.humidity) :
    fieldUnset (setHumidity d x) k' = fieldUnset d k' := by
  unfold fieldUnset
  cases hk' : keyOf k' with
  | none => rfl
  | some f => cases f <;> simp_all [setHumidity]

lemma fieldUnset_setWindspeedmph (d : WeatherData) (x : ℚ) (k' : String)
    (hne : keyOf k' ≠ some FieldId.windspeedmph) :
    fieldUnset (setWindspeedmph d x) k' = fieldUnset d k' := by
  unfold fieldUnset
  cases hk' : keyOf k' with
  | none => rfl
  | some f => cases f <;> simp_all [setWindspeedmph]

lemma fieldUnset_setWindgustmph (d : WeatherData) (x : ℚ) (k' : String)
    (hne : keyOf k' ≠ some FieldId.windgustmph) :
    fieldUnset (setWindgustmph d x) k' = fieldUnset d k' := by
  unfold fieldUnset
  cases hk' : keyOf k' with
  | none => rfl
  | some f => cases f <;> simp_all [setWindgustmph]

lemma fieldUnset_setMaxdailygust (d : WeatherData) (x : ℚ) (k' : String)
    (hne : keyOf k' ≠ some FieldId.maxdailygust) :
    fieldUnset (setMaxdailygust d x) k' = fieldUnset d k' := by
  unfold fieldUnset
  cases hk' : keyOf k' with
  | none => rfl
  | some f => cases f <;> simp_all [setMaxdailygust]

lemma fieldUnset_setWinddir (d : WeatherData) (x : ℕ) (k' : String)
    (hne : keyOf k' ≠ some FieldId.winddir) :
    fieldUnset (setWinddir d x) k' = fieldUnset d k' := by
  unfold fieldUnset
  cases hk' : keyOf k' with
  | none => rfl
  | some f => cases f <;> simp_all [setWinddir]

lemma fieldUnset_setWinddirAvg10m (d : WeatherData) (x : ℕ) (k' : String)
    (hne : keyOf k' ≠ some FieldId.winddir_avg10m) :
    fieldUnset (setWinddirAvg10m d x) k' = fieldUnset d k' := by
  unfold fieldUnset
  cases hk' : keyOf k' with
  | none => rfl
  | some f => cases f <;> simp_all [setWinddirAvg10m]

lemma fieldUnset_setUv (d : WeatherData) (x : ℕ) (k' : String)
    (hne : keyOf k' ≠ some FieldId.uv) :
    fieldUnset (setUv d x) k' = fieldUnset d k' := by
  unfold fieldUnset
  cases hk' : keyOf k' with
  | none => rfl
  | some f => cases f <;> simp_all [setUv]

lemma fieldUnset_setSolarradiation (d : WeatherData) (x : ℚ) (k' : String)
    (hne : keyOf k' ≠ some FieldId.solarradiation) :
    fieldUnset (setSolarradiation d x) k' = fieldUnset d k' := by
  unfold fieldUnset
  cases hk' : keyOf k' with
  | none => rfl
  | some f => cases f <;> simp_all [setSolarradiation]

lemma fieldUnset_setHourlyrainin (d : WeatherData) (x : ℚ) (k' : String)
    (hne : keyOf k' ≠ some FieldId.hourlyrainin) :
    fieldUnset (setHourlyrainin d x) k' = fieldUnset d k' := by
  unfold fieldUnset
  cases hk' : keyOf k' with
  | none => rfl
  | some f => cases f <;> simp_all [setHourlyrainin]

lemma fieldUnset_setEventrainin (d : WeatherData) (x : ℚ) (k' : String)
    (hne : keyOf k' ≠ some FieldId.eventrainin) :
    fieldUnset (setEventrainin d x) k' = fieldUnset d k' := by
  unfold fieldUnset
  cases hk' : keyOf k' with
  | none => rfl
  | some f => cases f <;> simp_all [setEventrainin]

lemma fieldUnset_setDailyrainin (d : WeatherData) (x : ℚ) (k' : String)
    (hne : keyOf k' ≠ some FieldId.dailyrainin) :
    fieldUnset (setDailyrainin d x) k' = fieldUnset d k' := by
  unfold fieldUnset
  cases hk' : keyOf k' with
  | none => rfl
  | some f => cases f <;> simp_all [setDailyrainin]

lemma fieldUnset_setWeeklyrainin (d : WeatherData) (x : ℚ) (k' : String)
    (hne : keyOf k' ≠ some FieldId.weeklyrainin) :
    fieldUnset (setWeeklyrainin d x) k' = fieldUnset d k' := by
  unfold fieldUnset
  cases hk' : keyOf k' with
  | none => rfl
  | some f => cases f <;> simp_all [setWeeklyrainin]

lemma fieldUnset_setMonthlyrainin (d : WeatherData) (x : ℚ) (k' : String)
    (hne : keyOf k' ≠ some FieldId.monthlyrainin) :
    fieldUnset (setMonthlyrainin d x) k' = fieldUnset d k' := by
  unfold fieldUnset
  cases hk' : keyOf k' with
  | none => rfl
  | some f => cases f <;> simp_all [setMonthlyrainin]

lemma fieldUnset_setYearlyrainin (d : WeatherData) (x : ℚ) (k' : String)
    (hne : keyOf k' ≠ some FieldId.yearlyrainin) :
    fieldUnset (setYearlyrainin d x) k' = fieldUnset d k' := by
  unfold fieldUnset
  cases hk' : keyOf k' with
  | none => rfl
  | some f => cases f <;> simp_all [setYearlyrainin]

lemma fieldUnset_setTempinf (d : WeatherData) (x : ℚ) (k' : String)
    (hne : keyOf k' ≠ some FieldId.tempinf) :
    fieldUnset (setTempinf d x) k' = fieldUnset d k' := by
  unfold fieldUnset
  cases hk' : keyOf k' with
  | none => rfl
  | some f => cases f <;> simp_all [setTempinf]

lemma fieldUnset_setHumidityin (d : WeatherData) (x : ℕ) (k' : String)
    (hne : keyOf k' ≠ some FieldId.humidityin) :
    fieldUnset (setHumidityin d x) k' = fieldUnset d k' := by
  unfold fieldUnset
  cases hk' : keyOf k' with
  | none => rfl
  | some f => cases f <;> simp_all [setHumidityin]

lemma fieldUnset_setBaromrelin (d : WeatherData) (x : ℚ) (k' : String)
    (hne : keyOf k' ≠ some FieldId.baromrelin) :
    fieldUnset (setBaromrelin d x) k' = fieldUnset d k' := by
  unfold fieldUnset
  cases hk' : keyOf k' with
  | none => rfl
  | some f => cases f <;> simp_all [setBaromrelin]

lemma fieldUnset_setBaromabsin (d : WeatherData) (x : ℚ) (k' : String)
    (hne : keyOf k' ≠ some FieldId.baromabsin) :
    fieldUnset (setBaromabsin d x) k' = fieldUnset d k' := by
  unfold fieldUnset
  cases hk' : keyOf k' with
  | none => rfl
  | some f => cases f <;> simp_all [setBaromabsin]

lemma fieldUnset_setBattout (d : WeatherData) (x : ℕ) (k' : String)
    (hne : keyOf k' ≠ some FieldId.battout) :
    fieldUnset (setBattout d x) k' = fieldUnset d k' := by
  unfold fieldUnset
  cases hk' : keyOf k' with
  | none => rfl
  | some f => cases f <;> simp_all [setBattout]

lemma fieldUnset_setBattin (d : WeatherData) (x : ℕ) (k' : String)
    (hne : keyOf k' ≠ some FieldId.battin) :
    fieldUnset (setBattin d x) k' = fieldUnset d k' := by
  unfold fieldUnset
  cases hk' : keyOf k' with
  | none => rfl
  | some f => cases f <;> simp_all [setBattin]

lemma fieldUnset_addExtra (d : WeatherData) (k v k' : String) :
    fieldUnset (addExtra d k v) k' = fieldUnset d k' := by
  unfold fieldUnset
  cases hk' : keyOf k' with
  | none => rfl
  | some f => cases f <;> rfl

/-- A successful `step` on key `k` does not set the field of any other
key. -/
lemma step_unset (d d' : WeatherData) (k v k' : String) (hne : k' ≠ k)
    (h : fieldUnset d k' = true) (hs : step d (k, v) = .ok d') :
    fieldUnset d' k' = true := by
  simp only [step] at hs
  cases hk : keyOf k with
  | none =>
    simp only [hk, Except.ok.injEq] at hs
    subst hs
    rw [fieldUnset_addExtra]
    exact h
  | some f =>
    have hkey : k = keyName f := keyOf_eq_some hk
    cases f <;>
      (simp only [hk] at hs
       split at hs
       · exact absurd hs (by simp)
       · first
         | (rcases hp : parseFloat v with e | x <;> rw [hp] at hs)
         | (rcases hp : parseUInt 255 v with e | x <;> rw [hp] at hs)
         | (rcases hp : parseUInt 65535 v with e | x <;> rw [hp] at hs)
         · simp [Except.map] at hs
         · simp only [Except.map, Except.ok.injEq] at hs
           subst hs
           first
           | rw [fieldUnset_setTempf _ _ _
               (fun hc => hne ((keyOf_eq_some hc).trans hkey.symm))]
           | rw [fieldUnset_setHumidity _ _ _
               (fun hc => hne ((keyOf_eq_some hc).trans hkey.symm))]
           | rw [fieldUnset_setWindspeedmph _ _ _
               (fun hc => hne ((keyOf_eq_some hc).trans hkey.symm))]
           | rw [fieldUnset_setWindgustmph _ _ _
               (fun hc => hne ((keyOf_eq_some hc).trans hkey.symm))]
           | rw [fieldUnset_setMaxdailygust _ _ _
               (fun hc => hne ((keyOf_eq_some hc).trans hkey.symm))]
           | rw [fieldUnset_setWinddir _ _ _
               (fun hc => hne ((keyOf_eq_some hc).trans hkey.symm))]
           | rw [fieldUnset_setWinddirAvg10m _ _ _
               (fun hc => hne ((keyOf_eq_some hc).trans hkey.symm))]
           | rw [fieldUnset_setUv _ _ _
               (fun hc => hne ((keyOf_eq_some hc).trans hkey.symm))]
           | rw [fieldUnset_setSolarradiation _ _ _
               (fun hc => hne ((keyOf_eq_some hc).trans hkey.symm))]
           | rw [fieldUnset_setHourlyrainin _ _ _
               (fun hc => hne ((keyOf_eq_some hc).trans hkey.symm))]
           | rw [fieldUnset_setEventrainin _ _ _
               (fun hc => hne ((keyOf_eq_some hc).trans hkey.symm))]
           | rw [fieldUnset_setDailyrainin _ _ _
               (fun hc => hne ((keyOf_eq_some hc).trans hkey.symm))]
           | rw [fieldUnset_setWeeklyrainin _ _ _
               (fun hc => hne ((keyOf_eq_some hc).trans hkey.symm))]
           | rw [fieldUnset_setMonthlyrainin _ _ _
               (fun hc => hne ((keyOf_eq_some hc).trans hkey.symm))]
           | rw [fieldUnset_setYearlyrainin _ _ _
               (fun hc => hne ((keyOf_eq_some hc).trans hkey.symm))]
           | rw [fieldUnset_setTempinf _ _ _
               (fun hc => hne ((keyOf_eq_some hc).trans hkey.symm))]
           | rw [fieldUnset_setHumidityin _ _ _
               (fun hc => hne ((keyOf_eq_some hc).trans hkey.symm))]
           | rw [fieldUnset_setBaromrelin _ _ _
               (fun hc => hne ((keyOf_eq_some hc).trans hkey.symm))]
           | rw [fieldUnset_setBaromabsin _ _ _
               (fun hc => hne ((keyOf_eq_some hc).trans hkey.symm))]
           | rw [fieldUnset_setBattout _ _ _
               (fun hc => hne ((keyOf_eq_some hc).trans hkey.symm))]
           | rw [fieldUnset_setBattin _ _ _
               (fun hc => hne ((keyOf_eq_some hc).trans hkey.symm))]
           exact h)

@[simp] lemma error_bind {α β : Type} (e : String) (g : α → Except String β) :
    (Except.error e >>= g) = (Except.error e : Except String β) := rfl

@[simp] lemma ok_bind {α β : Type} (a : α) (g : α → Except String β) :
    (Except.ok a >>= g) = g a := rfl

/-- Fold characterization: starting from a record whose fields for the
remaining (pairwise distinct) keys are all unset, decoding succeeds exactly
when every pair is good. -/
lemma decodeAux_ok (m : List (String × String)) (d : WeatherData)
    (hnd : (m.map Prod.fst).Nodup)
    (hun : ∀ kv ∈ m, fieldUnset d kv.1 = true) :
    exOk (m.foldlM step d) = m.all (fun kv => goodPair kv.1 kv.2) := by
  induction m generalizing d with
  | nil => rfl
  | cons kv rest ih =>
    obtain ⟨k, v⟩ := kv
    have hkne : ∀ kv' ∈ rest, kv'.1 ≠ k := by
      intro kv' hkv' heq
      have hmem : kv'.1 ∈ rest.map Prod.fst := List.mem_map_of_mem Prod.fst hkv'
      rw [heq] at hmem
      exact (List.nodup_cons.mp hnd).1 hmem
    have hU : fieldUnset d k = true := hun (k, v) (List.mem_cons_self _ _)
    have hA := step_ok_eq d k v hU
    rcases hs : step d (k, v) with e | d'
    · rw [hs] at hA
      simp only [exOk_error] at hA
      simp [List.foldlM_cons, hs, ← hA]
    · rw [hs] at hA
      simp only [exOk_ok] at hA
      have hrest : ∀ kv' ∈ rest, fieldUnset d' kv'.1 = true := fun kv' hkv' =>
        step_unset d d' k v kv'.1 (hkne kv' hkv')
          (hun kv' (List.mem_cons_of_mem _ hkv')) hs
      simp [List.foldlM_cons, hs, ← hA,
        ih d' (List.nodup_cons.mp hnd).2 hrest]

/-- Decode of a key-unique map succeeds exactly when every pair is good. -/
lemma decode_ok_eq (m : List (String × String))
    (hnd : (m.map Prod.fst).Nodup) :
    exOk (decode m) = m.all (fun kv => goodPair kv.1 kv.2) :=
  decodeAux_ok m {} hnd (fun kv _ => fieldUnset_empty kv.1)

lemma exOk_eq_false_iff {α : Type} (e : Except String α) :
    exOk e = false ↔ ∃ msg, e = .error msg := by
  cases e <;> simp [exOk]

lemma exOk_eq_true_iff {α : Type} (e : Except String α) :
    exOk e = true ↔ ∃ a, e = .ok a := by
  cases e <;> simp [exOk]

/-- A bad pair always has a recognized key. -/
lemma goodPair_false_recognized (k v : String) (h : goodPair k v = false) :
    (recognize k).isSome = true := by
  unfold goodPair at h
  cases hr : recognize k with
  | none => rw [hr] at h; simp at h
  | some f => simp

/-! ## Bounds and overflow of the unsigned parsers -/

lemma parseUIntLoop_le (lim : ℕ) :
    ∀ (cs : List Char) (acc n : ℕ), acc ≤ lim →
      parseUIntLoop lim acc cs = .ok n → n ≤ lim := by
  intro cs
  induction cs with
  | nil =>
    intro acc n hle h
    unfold parseUIntLoop at h
    cases h
    exact hle
  | cons c cs ih =>
    intro acc n hle h
    unfold parseUIntLoop at h
    split_ifs at h with hdig hlt
    exact ih _ n (Nat.not_lt.mp hlt) h

lemma parseUInt_le (lim : ℕ) (s : String) (n : ℕ)
    (h : parseUInt lim s = .ok n) : n ≤ lim := by
  unfold parseUInt at h
  rcases hd : s.data with _ | ⟨c, rest⟩ <;> rw [hd] at h <;>
    simp only [parseUIntData] at h
  · cases h
  · unfold parseUIntAfterSign at h
    split_ifs at h
    all_goals exact parseUIntLoop_le lim _ 0 n (Nat.zero_le lim) h

lemma parseUIntLoop_overflow (lim : ℕ) :
    ∀ (cs : List Char) (acc : ℕ), cs.all Char.isDigit = true → acc ≤ lim →
      lim < cs.foldl (fun a c => 10 * a + (c.toNat - 48)) acc →
      parseUIntLoop lim acc cs = .error "number too large to fit in target type" := by
  intro cs
  induction cs with
  | nil =>
    intro acc _ hle hlt
    exact absurd hlt (by simpa using Nat.not_lt.mpr hle)
  | cons c cs ih =>
    intro acc hall hle hlt
    simp only [List.all_cons, Bool.and_eq_true] at hall
    unfold parseUIntLoop
    rw [if_pos hall.1]
    by_cases hbig : lim < 10 * acc + (c.toNat - 48)
    · rw [if_pos hbig]
    · rw [if_neg hbig]
      exact ih _ hall.2 (Nat.not_lt.mp hbig) (by simpa using hlt)

lemma parseUInt_overflow (lim : ℕ) (s : String) (h1 : s.data ≠ [])
    (h2 : s.data.all Char.isDigit = true) (h3 : lim < digitsVal s.data) :
    parseUInt lim s = .error "number too large to fit in target type" := by
  unfold parseUInt
  rcases hd : s.data with _ | ⟨c, rest⟩
  · exact absurd hd h1
  · rw [hd] at h2 h3
    simp only [List.all_cons, Bool.and_eq_true] at h2
    have hcp : ¬(c = '+') := by
      intro hx
      rw [hx] at h2
      exact absurd h2.1 (by decide)
    simp only [parseUIntData]
    rw [if_neg hcp]
    unfold parseUIntAfterSign
    rw [if_neg (by simp)]
    exact parseUIntLoop_overflow lim (c :: rest) 0
      (by simp [h2.1, h2.2]) (Nat.zero_le lim) h3

/-! ## Unrecognized keys do not affect the decode outcome -/

lemma all_filter_recognized (m : List (String × String)) :
    (m.filter fun kv => (recognize kv.1).isSome).all (fun kv => goodPair kv.1 kv.2)
      = m.all (fun kv => goodPair kv.1 kv.2) := by
  induction m with
  | nil => rfl
  | cons kv rest ih =>
    by_cases hr : (recognize kv.1).isSome = true
    · simp [List.filter_cons, hr, ih]
    · have hg : goodPair kv.1 kv.2 = true := by
        unfold goodPair
        cases hrec : recognize kv.1 with
        | none => rfl
        | some f => exact absurd (by simp [hrec]) hr
      simp [List.filter_cons, hr, ih, hg]

lemma nodup_filter_keys (m : List (String × String))
    (h : (m.map Prod.fst).Nodup) (p : String × String → Bool) :
    (((m.filter p).map Prod.fst)).Nodup :=
  h.sublist ((List.filter_sublist m).map Prod.fst)


lemma decode_singleton (kv : String × String) : decode [kv] = step {} kv := by
  unfold decode
  simp only [List.foldlM_cons, List.foldlM_nil]
  rcases hs : step {} kv with e | d <;> rfl

/-- Decoding a key-unique map that succeeds makes every pair good. -/
lemma decode_ok_good (m : List (String × String))
    (hnd : (m.map Prod.fst).Nodup) (r : WeatherData) (hok : decode m = .ok r) :
    ∀ kv ∈ m, goodPair kv.1 kv.2 = true := by
  have hd := decode_ok_eq m hnd
  rw [hok] at hd
  simp only [exOk_ok] at hd
  exact List.all_eq_true.mp hd.symm

lemma goodPair_u8 (k v : String) (hk : recognize k = some .u8)
    (h : goodPair k v = true) : ∃ n, parseUInt 255 v = .ok n ∧ n ≤ 255 := by
  unfold goodPair at h
  rw [hk] at h
  obtain ⟨n, hn⟩ := (exOk_eq_true_iff _).mp h
  exact ⟨n, hn, parseUInt_le _ _ _ hn⟩

lemma goodPair_u16 (k v : String) (hk : recognize k = some .u16)
    (h : goodPair k v = true) : ∃ n, parseUInt 65535 v = .ok n ∧ n ≤ 65535 := by
  unfold goodPair at h
  rw [hk] at h
  obtain ⟨n, hn⟩ := (exOk_eq_true_iff _).mp h
  exact ⟨n, hn, parseUInt_le _ _ _ hn⟩

/-- Nearest-integer bound for the rounding kernel. -/
lemma floor_add_half_dist (q : ℚ) : |(⌊q + 1/2⌋ : ℚ) - q| ≤ 1/2 := by
  have h1 : (⌊q + 1/2⌋ : ℚ) ≤ q + 1/2 := Int.floor_le _
  have h2 : q + 1/2 - 1 < (⌊q + 1/2⌋ : ℚ) := Int.sub_one_lt_floor _
  rw [abs_le]
  constructor <;> linarith

/-! ## Claims -/

/-- Claim C1: for every Reading and every registry state, `update` leaves the
gauge of each absent (`None`) field completely unchanged; a freshly
constructed registry holds the 0.0 zero-value default in every gauge. -/
theorem c1_absent_field_frame :
    (∀ (m : Metrics) (d : WeatherData),
      (d.tempf = none → (m.update d).temperature = m.temperature) ∧
      (d.humidity = none → (m.update d).humidity = m.humidity) ∧
      (d.windspeedmph = none → (m.update d).wind_speed = m.wind_speed) ∧
      (d.windgustmph = none → (m.update d).wind_gust = m.wind_gust) ∧
      (d.maxdailygust = none → (m.update d).max_daily_gust = m.max_daily_gust) ∧
      (d.winddir = none → (m.update d).wind_direction = m.wind_direction) ∧
      (d.winddir_avg10m = none →
        (m.update d).wind_direction_avg = m.wind_direction_avg) ∧
      (d.uv = none → (m.update d).uv_index = m.uv_index) ∧
      (d.solarradiation = none →
        (m.update d).solar_radiation = m.solar_radiation) ∧
      (d.hourlyrainin = none → (m.update d).rain_hourly = m.rain_hourly) ∧
      (d.eventrainin = none → (m.update d).rain_event = m.rain_event) ∧
      (d.dailyrainin = none → (m.update d).rain_daily = m.rain_daily) ∧
      (d.weeklyrainin = none → (m.update d).rain_weekly = m.rain_weekly) ∧
      (d.monthlyrainin = none → (m.update d).rain_monthly = m.rain_monthly) ∧
      (d.yearlyrainin = none → (m.update d).rain_yearly = m.rain_yearly) ∧
      (d.tempinf = none →
        (m.update d).temperature_indoor = m.temperature_indoor) ∧
      (d.humidityin = none → (m.update d).humidity_indoor = m.humidity_indoor) ∧
      (d.baromrelin = none →
        (m.update d).barometer_relative = m.barometer_relative) ∧
      (d.baromabsin = none →
        (m.update d).barometer_absolute = m.barometer_absolute) ∧
      (d.battout = none → (m.update d).battery_outdoor = m.battery_outdoor) ∧
      (d.battin = none → (m.update d).battery_indoor = m.battery_indoor)) ∧
    Metrics.new.map (fun M =>
      [M.temperature.value, M.humidity.value, M.wind_speed.value,
       M.wind_gust.value, M.max_daily_gust.value, M.wind_direction.value,
       M.wind_direction_avg.value, M.uv_index.value, M.solar_radiation.value,
       M.rain_hourly.value, M.rain_event.value, M.rain_daily.value,
       M.rain_weekly.value, M.rain_monthly.value, M.rain_yearly.value,
       M.temperature_indoor.value, M.humidity_indoor.value,
       M.barometer_relative.value, M.barometer_absolute.value,
       M.battery_outdoor.value, M.battery_indoor.value])
      = .ok (List.replicate 21 (0 : ℚ)) := by
  constructor
  · intro m d
    refine ⟨?_, ?_, ?_, ?_, ?_, ?_, ?_, ?_, ?_, ?_, ?_, ?_, ?_, ?_, ?_, ?_,
      ?_, ?_, ?_, ?_, ?_⟩ <;>
      (intro h; simp [Metrics.update, h])
  · decide

/-- Witness for C1 at a concrete registry and the all-absent reading. -/
theorem c1_witness :
    (someMetrics.update {}).temperature = someMetrics.temperature ∧
    (someMetrics.update {}).humidity = someMetrics.humidity ∧
    (someMetrics.update {}).wind_speed = someMetrics.wind_speed ∧
    (someMetrics.update {}).wind_gust = someMetrics.wind_gust ∧
    (someMetrics.update {}).max_daily_gust = someMetrics.max_daily_gust ∧
    (someMetrics.update {}).wind_direction = someMetrics.wind_direction ∧
    (someMetrics.update {}).wind_direction_avg = someMetrics.wind_direction_avg ∧
    (someMetrics.update {}).uv_index = someMetrics.uv_index ∧
    (someMetrics.update {}).solar_radiation = someMetrics.solar_radiation ∧
    (someMetrics.update {}).rain_hourly = someMetrics.rain_hourly ∧
    (someMetrics.update {}).rain_event = someMetrics.rain_event ∧
    (someMetrics.update {}).rain_daily = someMetrics.rain_daily ∧
    (someMetrics.update {}).rain_weekly = someMetrics.rain_weekly ∧
    (someMetrics.update {}).rain_monthly = someMetrics.rain_monthly ∧
    (someMetrics.update {}).rain_yearly = someMetrics.rain_yearly ∧
    (someMetrics.update {}).temperature_indoor = someMetrics.temperature_indoor ∧
    (someMetrics.update {}).humidity_indoor = someMetrics.humidity_indoor ∧
    (someMetrics.update {}).barometer_relative = someMetrics.barometer_relative ∧
    (someMetrics.update {}).barometer_absolute = someMetrics.barometer_absolute ∧
    (someMetrics.update {}).battery_outdoor = someMetrics.battery_outdoor ∧
    (someMetrics.update {}).battery_indoor = someMetrics.battery_indoor := by
  have h := c1_absent_field_frame.1 someMetrics {}
  exact ⟨h.1 rfl, h.2.1 rfl, h.2.2.1 rfl, h.2.2.2.1 rfl, h.2.2.2.2.1 rfl,
    h.2.2.2.2.2.1 rfl, h.2.2.2.2.2.2.1 rfl, h.2.2.2.2.2.2.2.1 rfl,
    h.2.2.2.2.2.2.2.2.1 rfl, h.2.2.2.2.2.2.2.2.2.1 rfl,
    h.2.2.2.2.2.2.2.2.2.2.1 rfl, h.2.2.2.2.2.2.2.2.2.2.2.1 rfl,
    h.2.2.2.2.2.2.2.2.2.2.2.2.1 rfl, h.2.2.2.2.2.2.2.2.2.2.2.2.2.1 rfl,
    h.2.2.2.2.2.2.2.2.2.2.2.2.2.2.1 rfl,
    h.2.2.2.2.2.2.2.2.2.2.2.2.2.2.2.1 rfl,
    h.2.2.2.2.2.2.2.2.2.2.2.2.2.2.2.2.1 rfl,
    h.2.2.2.2.2.2.2.2.2.2.2.2.2.2.2.2.2.1 rfl,
    h.2.2.2.2.2.2.2.2.2.2.2.2.2.2.2.2.2.2.1 rfl,
    h.2.2.2.2.2.2.2.2.2.2.2.2.2.2.2.2.2.2.2.1 rfl,
    h.2.2.2.2.2.2.2.2.2.2.2.2.2.2.2.2.2.2.2.2 rfl⟩

/-- Claim C2: `round` multiplies by `10^places`, rounds half away from zero to
the nearest integer, and divides back; in particular the four reference
vectors hold. The rounding kernel is within 1/2 of its argument, is odd, and
on nonnegative arguments is `⌊q + 1/2⌋`. -/
theorem c2_round_spec :
    (∀ (v : ℚ) (d : ℕ),
      round v d = (roundHalfAway (v * 10 ^ d) : ℚ) / 10 ^ d) ∧
    (∀ q : ℚ, |(roundHalfAway q : ℚ) - q| ≤ 1/2) ∧
    (∀ q : ℚ, roundHalfAway (-q) = -roundHalfAway q) ∧
    (∀ q : ℚ, roundHalfAway |q| = ⌊|q| + 1/2⌋) ∧
    round 72.456 1 = 72.5 ∧ round 72.444 1 = 72.4 ∧
    round 0.123456 3 = 0.123 ∧ round 0.1239 3 = 0.124 := by
  refine ⟨fun v d => rfl, ?_, ?_, ?_, by decide, by decide, by decide, by decide⟩
  · intro q
    unfold roundHalfAway
    split_ifs with hq
    · exact floor_add_half_dist q
    · have := floor_add_half_dist (-q)
      calc |((-⌊-q + 1/2⌋ : ℤ) : ℚ) - q| = |(⌊-q + 1/2⌋ : ℚ) - -q| := by
            push_cast
            rw [← abs_neg]
            ring_nf
          _ ≤ 1/2 := this
  · intro q
    unfold roundHalfAway
    rcases lt_trichotomy q 0 with h | h | h
    · rw [if_pos (by linarith : (0:ℚ) ≤ -q), if_neg (not_le.mpr h)]
      all_goals simp
    · subst h
      norm_num
    · rw [if_neg (by simp [not_le, h] : ¬ (0:ℚ) ≤ -q), if_pos h.le]
      all_goals simp
  · intro q
    unfold roundHalfAway
    rw [if_pos (abs_nonneg q)]

/-- Claim C3: `update` stores each present float field rounded to its
field-specific precision (temperatures 1 decimal; wind speeds/gusts and solar
radiation 2; rainfall and pressure 3) and stores each present integer field
as its exact value cast to floating point, with no call to `round`. -/
theorem c3_update_precision :
    ∀ (m : Metrics) (d : WeatherData),
      ((m.update d).temperature.value
        = match d.tempf with
          | some v => round v 1
          | none => m.temperature.value) ∧
      ((m.update d).humidity.value
        = match d.humidity with
          | some v => (v : ℚ)
          | none => m.humidity.value) ∧
      ((m.update d).wind_speed.value
        = match d.windspeedmph with
          | some v => round v 2
          | none => m.wind_speed.value) ∧
      ((m.update d).wind_gust.value
        = match d.windgustmph with
          | some v => round v 2
          | none => m.wind_gust.value) ∧
      ((m.update d).max_daily_gust.value
        = match d.maxdailygust with
          | some v => round v 2
          | none => m.max_daily_gust.value) ∧
      ((m.update d).wind_direction.value
        = match d.winddir with
          | some v => (v : ℚ)
          | none => m.wind_direction.value) ∧
      ((m.update d).wind_direction_avg.value
        = match d.winddir_avg10m with
          | some v => (v : ℚ)
          | none => m.wind_direction_avg.value) ∧
      ((m.update d).uv_index.value
        = match d.uv with
          | some v => (v : ℚ)
          | none => m.uv_index.value) ∧
      ((m.update d).solar_radiation.value
        = match d.solarradiation with
          | some v => round v 2
          | none => m.solar_radiation.value) ∧
      ((m.update d).rain_hourly.value
        = match d.hourlyrainin with
          | some v => round v 3
          | none => m.rain_hourly.value) ∧
      ((m.update d).rain_event.value
        = match d.eventrainin with
          | some v => round v 3
          | none => m.rain_event.value) ∧
      ((m.update d).rain_daily.value
        = match d.dailyrainin with
          | some v => round v 3
          | none => m.rain_daily.value) ∧
      ((m.update d).rain_weekly.value
        = match d.weeklyrainin with
          | some v => round v 3
          | none => m.rain_weekly.value) ∧
      ((m.update d).rain_monthly.value
        = match d.monthlyrainin with
          | some v => round v 3
          | none => m.rain_monthly.value) ∧
      ((m.update d).rain_yearly.value
        = match d.yearlyrainin with
          | some v => round v 3
          | none => m.rain_yearly.value) ∧
      ((m.update d).temperature_indoor.value
        = match d.tempinf with
          | some v => round v 1
          | none => m.temperature_indoor.value) ∧
      ((m.update d).humidity_indoor.value
        = match d.humidityin with
          | some v => (v : ℚ)
          | none => m.humidity_indoor.value) ∧
      ((m.update d).barometer_relative.value
        = match d.baromrelin with
          | some v => round v 3
          | none => m.barometer_relative.value) ∧
      ((m.update d).barometer_absolute.value
        = match d.baromabsin with
          | some v => round v 3
          | none => m.barometer_absolute.value) ∧
      ((m.update d).battery_outdoor.value
        = match d.battout with
          | some v => (v : ℚ)
          | none => m.battery_outdoor.value) ∧
      ((m.update d).battery_indoor.value
        = match d.battin with
          | some v => (v : ℚ)
          | none => m.battery_indoor.value) := by
  intro m d
  refine ⟨?_, ?_, ?_, ?_, ?_, ?_, ?_, ?_, ?_, ?_, ?_, ?_, ?_, ?_, ?_, ?_,
    ?_, ?_, ?_, ?_, ?_⟩
  · rcases hd : d.tempf with _ | v <;> simp [Metrics.update, Gauge.set, hd]
  · rcases hd : d.humidity with _ | v <;> simp [Metrics.update, Gauge.set, hd]
  · rcases hd : d.windspeedmph with _ | v <;> simp [Metrics.update, Gauge.set, hd]
  · rcases hd : d.windgustmph with _ | v <;> simp [Metrics.update, Gauge.set, hd]
  · rcases hd : d.maxdailygust with _ | v <;> simp [Metrics.update, Gauge.set, hd]
  · rcases hd : d.winddir with _ | v <;> simp [Metrics.update, Gauge.set, hd]
  · rcases hd : d.winddir_avg10m with _ | v <;> simp [Metrics.update, Gauge.set, hd]
  · rcases hd : d.uv with _ | v <;> simp [Metrics.update, Gauge.set, hd]
  · rcases hd : d.solarradiation with _ | v <;> simp [Metrics.update, Gauge.set, hd]
  · rcases hd : d.hourlyrainin with _ | v <;> simp [Metrics.update, Gauge.set, hd]
  · rcases hd : d.eventrainin with _ | v <;> simp [Metrics.update, Gauge.set, hd]
  · rcases hd : d.dailyrainin with _ | v <;> simp [Metrics.update, Gauge.set, hd]
  · rcases hd : d.weeklyrainin with _ | v <;> simp [Metrics.update, Gauge.set, hd]
  · rcases hd : d.monthlyrainin with _ | v <;> simp [Metrics.update, Gauge.set, hd]
  · rcases hd : d.yearlyrainin with _ | v <;> simp [Metrics.update, Gauge.set, hd]
  · rcases hd : d.tempinf with _ | v <;> simp [Metrics.update, Gauge.set, hd]
  · rcases hd : d.humidityin with _ | v <;> simp [Metrics.update, Gauge.set, hd]
  · rcases hd : d.baromrelin with _ | v <;> simp [Metrics.update, Gauge.set, hd]
  · rcases hd : d.baromabsin with _ | v <;> simp [Metrics.update, Gauge.set, hd]
  · rcases hd : d.battout with _ | v <;> simp [Metrics.update, Gauge.set, hd]
  · rcases hd : d.battin with _ | v <;> simp [Metrics.update, Gauge.set, hd]

/-- Claim C4: unrecognized keys never cause a decode failure — filtering them
out does not change the decode outcome — and the reference vector
`tempf=72.5&humidity=45` decodes to exactly those two fields with everything
else absent; a lone unknown key is captured in the `extra` catch-all. -/
theorem c4_unknown_keys_tolerated :
    (∀ m : List (String × String), (m.map Prod.fst).Nodup →
      exOk (decode m)
        = exOk (decode (m.filter fun kv => (recognize kv.1).isSome))) ∧
    decode [("tempf", "72.5"), ("humidity", "45")]
      = .ok { tempf := some 72.5, humidity := some 45 } ∧
    decode [("foo", "bar")] = .ok { extra := [("foo", "bar")] } := by
  refine ⟨?_, by decide, by decide⟩
  intro m h
  rw [decode_ok_eq m h, decode_ok_eq _ (nodup_filter_keys m h _),
    all_filter_recognized]

/-- Witness for C4 at a concrete map mixing recognized and vendor keys. -/
theorem c4_witness :
    exOk (decode [("tempf", "72.5"), ("foo", "bar")])
      = exOk (decode ([("tempf", "72.5"), ("foo", "bar")].filter
          fun kv => (recognize kv.1).isSome)) :=
  c4_unknown_keys_tolerated.1 [("tempf", "72.5"), ("foo", "bar")] (by decide)

/-- Counterexample for C5 as stated: the parse error produced for
`tempf=notanumber` is the standard-library message `invalid float literal`;
neither it nor its `AppError` wrapping contains the offending field name
`tempf`. -/
theorem c5_counterexample :
    decode [("tempf", "notanumber")] = .error "invalid float literal" ∧
    ¬ ("tempf".data <:+:
        ("failed to parse weather data: " ++ "invalid float literal").data) := by
  constructor
  · decide
  · decide

/-- Claim C5 (amended): decoding a key-unique map fails exactly when some
recognized key's value cannot be parsed as the field's declared type (missing
keys are never an error), and the parse error's message is the underlying
type-parse failure description — for `tempf=notanumber` the message
`invalid float literal`, which does not name the field. -/
theorem c5_amended_decode_failure :
    (∀ m : List (String × String), (m.map Prod.fst).Nodup →
      ((∃ e, decode m = .error e) ↔
        ∃ kv ∈ m, (recognize kv.1).isSome = true ∧ goodPair kv.1 kv.2 = false)) ∧
    decode [("tempf", "notanumber")] = .error "invalid float literal" := by
  refine ⟨?_, by decide⟩
  intro m hnd
  have hd := decode_ok_eq m hnd
  constructor
  · rintro ⟨e, he⟩
    rw [he] at hd
    simp only [exOk_error] at hd
    have : ¬ (m.all (fun kv => goodPair kv.1 kv.2) = true) := by
      rw [← hd]
      simp
    rw [List.all_eq_true] at this
    push_neg at this
    obtain ⟨kv, hkv, hbad⟩ := this
    have hbad' : goodPair kv.1 kv.2 = false := by
      simpa using hbad
    exact ⟨kv, hkv, goodPair_false_recognized kv.1 kv.2 hbad', hbad'⟩
  · rintro ⟨kv, hkv, _, hbad⟩
    have hfalse : m.all (fun kv => goodPair kv.1 kv.2) = false := by
      rcases Bool.eq_false_or_eq_true (m.all fun kv => goodPair kv.1 kv.2)
        with h | h
      · have := List.all_eq_true.mp h kv hkv
        rw [hbad] at this
        exact absurd this (by simp)
      · exact h
    rw [hfalse] at hd
    exact (exOk_eq_false_iff _).mp hd

/-- Witness for the amended C5 at a concrete failing map. -/
theorem c5_witness :
    ∃ e, decode [("tempf", "notanumber")] = .error e :=
  (c5_amended_decode_failure.1 [("tempf", "notanumber")] (by decide)).mpr
    ⟨("tempf", "notanumber"), by decide, by decide, by decide⟩

/-- Counterexample for C6 as stated: the registry built at process start
registers exactly 21 gauges, not 22. -/
theorem c6_counterexample :
    Metrics.new.map (fun M => M.registry.length) = .ok 21 ∧ (21 : ℕ) ≠ 22 := by
  constructor
  · decide
  · decide

/-- Claim C6 (amended): the registry constructed at process start contains
exactly 21 named gauges — the catalog `gaugeNames`, in registration order —
each name registered exactly once (the name list has no duplicates); a
duplicate registration is a construction-time `MetricRegistrationError`
identifying the gauge name; and writing a gauge value never changes its name
or help text. -/
theorem c6_amended_registry :
    Metrics.new.map (fun M => M.registry) = .ok gaugeNames ∧
    gaugeNames.length = 21 ∧
    gaugeNames.Nodup ∧
    (∀ n ∈ gaugeNames, gaugeNames.count n = 1) ∧
    (∀ (reg : List String) (name help : String), reg.contains name = true →
      register_gauge reg name help = .error (.MetricRegistrationError name)) ∧
    (∀ (g : Gauge) (x : ℚ), (g.set x).name = g.name ∧ (g.set x).help = g.help) := by
  refine ⟨by decide, by decide, by decide, by decide, ?_, fun g x => ⟨rfl, rfl⟩⟩
  intro reg name help h
  unfold register_gauge
  rw [if_pos h]

/-- Witness for the amended C6: a concrete name registered once, and a
concrete duplicate registration failing with the offending name. -/
theorem c6_witness :
    gaugeNames.count "weather_uv_index" = 1 ∧
    register_gauge ["weather_uv_index"] "weather_uv_index" "Current UV index level"
      = .error (.MetricRegistrationError "weather_uv_index") := by
  constructor
  · exact c6_amended_registry.2.2.2.1 "weather_uv_index" (by decide)
  · exact c6_amended_registry.2.2.2.2.1 ["weather_uv_index"] "weather_uv_index"
      "Current UV index level" (by decide)

/-- Counterexample for C7 as stated: `humidity=200` decodes successfully and
stores 200, although 200 is outside the documented 0–100 range. -/
theorem c7_counterexample :
    decode [("humidity", "200")] = .ok { humidity := some 200 } ∧
    ¬ (200 ≤ 100) := by
  constructor
  · decide
  · decide

/-- Claim C7 (amended): on a key-unique map that decodes successfully, every
present integer field's value parses as a non-negative integer within its
declared type's range — 0–255 for the `u8` fields (humidity, indoor humidity,
UV index, battery flags) and 0–65535 for the `u16` wind-direction fields —
not within the narrower documented sensor ranges. -/
theorem c7_amended_integer_ranges :
    ∀ (m : List (String × String)), (m.map Prod.fst).Nodup →
      ∀ r, decode m = .ok r →
        (∀ v, ("humidity", v) ∈ m → ∃ n, parseUInt 255 v = .ok n ∧ n ≤ 255) ∧
        (∀ v, ("humidityin", v) ∈ m → ∃ n, parseUInt 255 v = .ok n ∧ n ≤ 255) ∧
        (∀ v, ("uv", v) ∈ m → ∃ n, parseUInt 255 v = .ok n ∧ n ≤ 255) ∧
        (∀ v, ("battout", v) ∈ m → ∃ n, parseUInt 255 v = .ok n ∧ n ≤ 255) ∧
        (∀ v, ("battin", v) ∈ m → ∃ n, parseUInt 255 v = .ok n ∧ n ≤ 255) ∧
        (∀ v, ("winddir", v) ∈ m →
          ∃ n, parseUInt 65535 v = .ok n ∧ n ≤ 65535) ∧
        (∀ v, ("winddir_avg10m", v) ∈ m →
          ∃ n, parseUInt 65535 v = .ok n ∧ n ≤ 65535) := by
  intro m hnd r hok
  have hgood := decode_ok_good m hnd r hok
  refine ⟨?_, ?_, ?_, ?_, ?_, ?_, ?_⟩ <;> intro v hv
  · exact goodPair_u8 "humidity" v (by decide) (hgood _ hv)
  · exact goodPair_u8 "humidityin" v (by decide) (hgood _ hv)
  · exact goodPair_u8 "uv" v (by decide) (hgood _ hv)
  · exact goodPair_u8 "battout" v (by decide) (hgood _ hv)
  · exact goodPair_u8 "battin" v (by decide) (hgood _ hv)
  · exact goodPair_u16 "winddir" v (by decide) (hgood _ hv)
  · exact goodPair_u16 "winddir_avg10m" v (by decide) (hgood _ hv)

/-- Witness for the amended C7 on a concrete successful decode containing all
seven integer fields. -/
theorem c7_witness :
    (∃ n, parseUInt 255 "45" = .ok n ∧ n ≤ 255) ∧
    (∃ n, parseUInt 255 "40" = .ok n ∧ n ≤ 255) ∧
    (∃ n, parseUInt 255 "5" = .ok n ∧ n ≤ 255) ∧
    (∃ n, parseUInt 255 "1" = .ok n ∧ n ≤ 255) ∧
    (∃ n, parseUInt 255 "0" = .ok n ∧ n ≤ 255) ∧
    (∃ n, parseUInt 65535 "350" = .ok n ∧ n ≤ 65535) ∧
    (∃ n, parseUInt 65535 "340" = .ok n ∧ n ≤ 65535) := by
  have h := c7_amended_integer_ranges
    [("humidity", "45"), ("humidityin", "40"), ("uv", "5"), ("battout", "1"),
     ("battin", "0"), ("winddir", "350"), ("winddir_avg10m", "340")]
    (by decide)
    { humidity := some 45, humidityin := some 40, uv := some 5,
      battout := some 1, battin := some 0, winddir := some 350,
      winddir_avg10m := some 340 }
    (by decide)
  exact ⟨h.1 "45" (by decide), h.2.1 "40" (by decide), h.2.2.1 "5" (by decide),
    h.2.2.2.1 "1" (by decide), h.2.2.2.2.1 "0" (by decide),
    h.2.2.2.2.2.1 "350" (by decide), h.2.2.2.2.2.2 "340" (by decide)⟩

/-- Claim C8: for every raw key→string map, the ingestion handler returns the
fixed acknowledgment `"ok"` (applying the decoded update) when decode
succeeds, and on decode failure returns a client-error response carrying the
parse error's description while leaving every previously stored gauge value
unchanged. -/
theorem c8_handler_contract :
    ∀ (m : Metrics) (params : List (String × String)),
      (∀ d, decode params = .ok d →
        handle_weather_data m params = (.success "ok", m.update d)) ∧
      (∀ e, decode params = .error e →
        handle_weather_data m params
          = (.badRequest ("failed to parse weather data: " ++ e), m)) := by
  intro m params
  constructor
  · intro d hd
    unfold handle_weather_data
    rw [hd]
  · intro e he
    unfold handle_weather_data
    rw [he]

/-- Witness for C8: one successful and one failing request against a concrete
registry. -/
theorem c8_witness :
    handle_weather_data someMetrics [("tempf", "72.5")]
      = (.success "ok", someMetrics.update { tempf := some 72.5 }) ∧
    handle_weather_data someMetrics [("tempf", "notanumber")]
      = (.badRequest ("failed to parse weather data: " ++ "invalid float literal"),
         someMetrics) := by
  constructor
  · exact (c8_handler_contract someMetrics _).1 { tempf := some 72.5 } (by decide)
  · exact (c8_handler_contract someMetrics _).2 "invalid float literal" (by decide)

/-- Claim C9: decoding an empty input map succeeds and yields a Reading in
which every one of the 21 optional fields is absent and the catch-all is
empty. -/
theorem c9_empty_decode :
    decode [] = .ok {} ∧
    ({} : WeatherData).tempf = none ∧
    ({} : WeatherData).humidity = none ∧
    ({} : WeatherData).windspeedmph = none ∧
    ({} : WeatherData).windgustmph = none ∧
    ({} : WeatherData).maxdailygust = none ∧
    ({} : WeatherData).winddir = none ∧
    ({} : WeatherData).winddir_avg10m = none ∧
    ({} : WeatherData).uv = none ∧
    ({} : WeatherData).solarradiation = none ∧
    ({} : WeatherData).hourlyrainin = none ∧
    ({} : WeatherData).eventrainin = none ∧
    ({} : WeatherData).dailyrainin = none ∧
    ({} : WeatherData).weeklyrainin = none ∧
    ({} : WeatherData).monthlyrainin = none ∧
    ({} : WeatherData).yearlyrainin = none ∧
    ({} : WeatherData).tempinf = none ∧
    ({} : WeatherData).humidityin = none ∧
    ({} : WeatherData).baromrelin = none ∧
    ({} : WeatherData).baromabsin = none ∧
    ({} : WeatherData).battout = none ∧
    ({} : WeatherData).battin = none ∧
    ({} : WeatherData).extra = [] := by
  decide

/-- Claim C10: because the integer fields are 8- and 16-bit unsigned types,
any digit string whose value exceeds the type's maximum fails to decode with
the overflow parse error — e.g. `humidity=300`, `uv=256`, `battout=2000`,
`winddir=65536` — while values up to the type maximum (255 / 65535) decode
and are stored as given. -/
theorem c10_integer_width_limits :
    (∀ v : String, v.data ≠ [] → v.data.all Char.isDigit = true →
      255 < digitsVal v.data →
      decode [("humidity", v)]
          = .error "number too large to fit in target type" ∧
      decode [("uv", v)] = .error "number too large to fit in target type" ∧
      decode [("battout", v)]
          = .error "number too large to fit in target type") ∧
    (∀ v : String, v.data ≠ [] → v.data.all Char.isDigit = true →
      65535 < digitsVal v.data →
      decode [("winddir", v)]
          = .error "number too large to fit in target type" ∧
      decode [("winddir_avg10m", v)]
          = .error "number too large to fit in target type") ∧
    decode [("humidity", "300")] = .error "number too large to fit in target type" ∧
    decode [("uv", "256")] = .error "number too large to fit in target type" ∧
    decode [("battout", "2000")] = .error "number too large to fit in target type" ∧
    decode [("humidity", "255")] = .ok { humidity := some 255 } ∧
    decode [("winddir", "65535")] = .ok { winddir := some 65535 } ∧
    decode [("winddir", "65536")]
      = .error "number too large to fit in target type" := by
  refine ⟨?_, ?_, by decide, by decide, by decide, by decide, by decide,
    by decide⟩
  · intro v h1 h2 h3
    refine ⟨?_, ?_, ?_⟩
    · rw [decode_singleton]
      simp only [step, show keyOf "humidity" = some FieldId.humidity from by decide]
      rw [parseUInt_overflow 255 v h1 h2 h3]
      rfl
    · rw [decode_singleton]
      simp only [step, show keyOf "uv" = some FieldId.uv from by decide]
      rw [parseUInt_overflow 255 v h1 h2 h3]
      rfl
    · rw [decode_singleton]
      simp only [step, show keyOf "battout" = some FieldId.battout from by decide]
      rw [parseUInt_overflow 255 v h1 h2 h3]
      rfl
  · intro v h1 h2 h3
    refine ⟨?_, ?_⟩
    · rw [decode_singleton]
      simp only [step, show keyOf "winddir" = some FieldId.winddir from by decide]
      rw [parseUInt_overflow 65535 v h1 h2 h3]
      rfl
    · rw [decode_singleton]
      simp only [step,
        show keyOf "winddir_avg10m" = some FieldId.winddir_avg10m from by decide]
      rw [parseUInt_overflow 65535 v h1 h2 h3]
      rfl

/-- Witness for C10's general overflow statements at concrete digit
strings. -/
theorem c10_witness :
    decode [("uv", "300")] = .error "number too large to fit in target type" ∧
    decode [("winddir_avg10m", "70000")]
      = .error "number too large to fit in target type" := by
  constructor
  · exact (c10_integer_width_limits.1 "300" (by decide) (by decide)
      (by decide)).2.1
  · exact (c10_integer_width_limits.2.1 "70000" (by decide) (by decide)
      (by decide)).2

end Stormcast
